import Mathlib

/-!
Verification of the getparty download engine.

Shallow embedding of the core of the `getparty` HTTP download manager
(files `getparty.go`, `part.go`, `cmd/getparty/main.go`) and proofs about
its error classification, resolver, part workers, retry policy, and
orchestrator decisions.

Machine integers are modelled as `Int`/`Nat`; where Go's fixed-width
arithmetic can overflow (the per-attempt deadline computation in
`Part.download`) the wrap-around is made explicit via `% 2^64`.
-/

namespace Getparty

/-! ## Error model

Go errors as they appear in this code base.  `errors.WithMessage` (from
github.com/pkg/errors) wraps an error and implements `Causer`, so
`errors.Cause` unwraps it; `ExpectedError`, `*flags.Error`,
`errors.New`/`errors.Errorf` results (`fundamental`), `context.Canceled`,
`context.DeadlineExceeded` and `io.EOF` do not implement `Causer` and are
their own cause. -/

inductive GoErr where
  /-- `*flags.Error`; the flag records whether `Type == flags.ErrHelp`. -/
  | flagsError (isHelp : Bool)
  /-- `ExpectedError{Err: inner}` from getparty.go. -/
  | expected (inner : GoErr)
  /-- `errors.New` / `errors.Errorf` value with its message. -/
  | fundamental (msg : String)
  /-- `context.Canceled`. -/
  | canceled
  /-- `context.DeadlineExceeded`. -/
  | deadlineExceeded
  /-- `io.EOF`. -/
  | eofErr
  /-- `errors.WithMessage(err, msg)`: message annotation, unwrapped by `errors.Cause`. -/
  | withMessage (msg : String) (err : GoErr)
  deriving Repr, DecidableEq

/-- `ErrGiveUp = errors.New("give up!")` (part.go). -/
def ErrGiveUp : GoErr := .fundamental "give up!"

/-- `ErrNilBody = errors.New("nil body")` (part.go). -/
def ErrNilBody : GoErr := .fundamental "nil body"

/-- `errors.Cause` from github.com/pkg/errors: unwrap `withMessage` layers. -/
def cause : GoErr → GoErr
  | .withMessage _ e => cause e
  | e => e

/-- The error value `follow` returns for a terminal non-200 response
(getparty.go line 400): `errors.Errorf("unexpected status: %s", resp.Status)`. -/
def errUnexpectedStatus (status : String) : GoErr :=
  .fundamental ("unexpected status: " ++ status)

/-- The error value `follow`'s deferred function installs after the redirect
budget is exhausted (getparty.go lines 354-358). -/
def errMaxRedirects : GoErr :=
  .expected (.fundamental "maximum number of redirects (10) followed")

/-- The reclassified cancellation error `Run` produces when the context was
canceled (getparty.go lines 211-214 and 299-301). -/
def errCanceledByUser : GoErr := .expected .canceled

/-- `Cmd.Exit` (getparty.go lines 89-115): switch on `errors.Cause(err)`:
`nil` → 0; `*flags.Error` → 0 if help else 2; `ExpectedError` → 1;
default → 3. -/
def Cmd.Exit : Option GoErr → Nat
  | none => 0
  | some e =>
    match cause e with
    | .flagsError true => 0
    | .flagsError false => 2
    | .expected _ => 1
    | _ => 3

/-- The deferred wrapper in `Cmd.Run`:
`err = errors.WithMessage(err, "run")`; `WithMessage` of `nil` is `nil`. -/
def runWrap (e : Option GoErr) : Option GoErr := e.map (.withMessage "run")

/-! ## Resolver / follower (`Cmd.follow`, getparty.go lines 332-432)

The redirect loop is modelled over a `server : Nat → Nat` giving the status
of the response at each hop.  Each iteration: if the status is a redirect,
take the `Location` and loop; otherwise the response is terminal: status 200
produces a `Session`, anything else is `unexpected status`.  When the loop
runs `maxRedirects` times without a terminal response, the deferred function
installs the expected max-redirects error. -/

/-- `maxRedirects = 10` (getparty.go line 36). -/
def maxRedirects : Nat := 10

/-- `isRedirect` (getparty.go lines 547-549): `status > 299 && status < 400`. -/
def isRedirect (status : Nat) : Bool := 299 < status && status < 400

inductive FollowResult where
  /-- a `Session` was produced from a terminal response with this status. -/
  | session (status : Nat)
  /-- `errors.Errorf("unexpected status: %s", resp.Status)` on a terminal response. -/
  | unexpectedStatus (status : Nat)
  /-- the deferred `ExpectedError`: maximum number of redirects followed. -/
  | maxRedirectsFollowed
  deriving Repr, DecidableEq

/-- The loop body of `Cmd.follow`: `i` is the hop index, `fuel` the remaining
redirect budget (the Go loop runs `for i := 0; i < maxRedirects; i++`). -/
def followGo (server : Nat → Nat) : Nat → Nat → FollowResult
  | _, 0 => .maxRedirectsFollowed
  | i, fuel + 1 =>
    let s := server i
    if isRedirect s then followGo server (i + 1) fuel
    else if s = 200 then .session s
    else .unexpectedStatus s

/-- `Cmd.follow`, abstracted over the statuses the server answers with. -/
def follow (server : Nat → Nat) : FollowResult := followGo server 0 maxRedirects

/-! ## Part (part.go) -/

/-- `Part` (part.go lines 34-50).  Only the fields the download logic reads or
writes are kept; the progress-bar, logger and transport handles are UI /
I/O plumbing.  `order` is the part index, `maxTry` the retry bound. -/
structure Part where
  FileName : String
  Start : Int
  Stop : Int
  Written : Int
  Skip : Bool
  /-- accumulated `Elapsed` in nanoseconds. -/
  Elapsed : Int
  order : Nat
  maxTry : Nat
  deriving Repr, DecidableEq

/-- `Part.isDone` (part.go lines 283-285): `p.Skip || p.Written > p.Stop-p.Start`. -/
def Part.isDone (p : Part) : Bool := p.Skip || p.Written > p.Stop - p.Start

/-- `Part.getRange` (part.go lines 276-281). -/
def Part.getRange (p : Part) : String :=
  if p.Stop ≤ 0 then "bytes=0-"
  else "bytes=" ++ toString (p.Start + p.Written) ++ "-" ++ toString p.Stop

/-! ## Per-attempt deadline (part.go lines 135-147)

```go
ctxTimeout := time.Duration(timeout) * time.Second
if count > 0 {
    ctxTimeout = time.Duration((1<<uint(count-1))*timeout) * time.Second
    if bound := 10 * time.Minute; ctxTimeout > bound {
        ctxTimeout = bound
    }
}
```
`timeout` has Go type `uint` (64-bit); the shift and the product wrap mod
`2^64`; `time.Duration` is `int64` nanoseconds, so the multiplication by
`time.Second` is a wrapping signed 64-bit multiplication. -/

/-- Reinterpret an integer as a two's-complement signed 64-bit value. -/
def i64wrap (z : Int) : Int :=
  let m := z % (2 ^ 64 : Int)
  if m < 2 ^ 63 then m else m - 2 ^ 64

/-- `time.Second` in nanoseconds. -/
def second : Int := 1000000000

/-- `10 * time.Minute` in nanoseconds. -/
def tenMinutes : Int := 600 * second

/-- The armed per-attempt deadline in nanoseconds, as the Go code computes it
(part.go lines 135-140), wrap-around included. -/
def attemptTimeoutNs (timeout : Nat) (count : Nat) : Int :=
  if count = 0 then i64wrap (i64wrap (timeout : Int) * second)
  else
    let raw : Nat := (2 ^ (count - 1) * timeout) % 2 ^ 64
    let ns := i64wrap (i64wrap (raw : Int) * second)
    if ns > tenMinutes then tenMinutes else ns

/-! ## One download attempt (the retry callback in `Part.download`)

The callback passed to `backoff.Retry` (part.go lines 115-261) is modelled
as a pure function.  The network is an oracle `DoResult`; the response body
is a list of read events, one per `io.CopyN` call in the streaming loop.
The segment file content is threaded as a list of bytes; it is opened once
with `O_APPEND|O_CREATE|O_WRONLY` (part.go line 91), so every write is an
append. -/

/-- The flags of the single `os.OpenFile` call for the segment file
(part.go line 91): `os.O_APPEND|os.O_CREATE|os.O_WRONLY`, permission 0644. -/
structure OpenMode where
  append : Bool
  create : Bool
  writeOnly : Bool
  truncate : Bool
  deriving Repr, DecidableEq

def segmentOpenMode : OpenMode :=
  { append := true, create := true, writeOnly := true, truncate := false }

/-- One `io.CopyN(buf, body, max)` outcome inside the streaming loop
(part.go lines 227-248).  `bs` are the bytes delivered into `buf` before
the outcome. -/
inductive ReadEv where
  /-- full read: `n = max`, `err = nil`; the buffer is then drained to the file. -/
  | chunk (bs : List Nat)
  /-- `*url.Error` with `Temporary()`: keep the buffer, shrink `max`, continue. -/
  | tempo (bs : List Nat) (e : GoErr)
  /-- `io.EOF`: break out of the loop. -/
  | eofEv (bs : List Nat)
  /-- any other error: break out of the loop. -/
  | failEv (bs : List Nat) (e : GoErr)
  deriving Repr, DecidableEq

/-- `bufSize = 1 << 12` (part.go line 23). -/
def bufSize : Int := 4096

/-- State threaded through the streaming loop: segment file content,
`bytes.Buffer` content, `p.Written`, the `max` chunk bound and the last
`io.CopyN` error (`none` after a clean read). -/
structure StreamState where
  file : List Nat
  buf : List Nat
  written : Int
  max : Int
  last : Option GoErr
  deriving Repr, DecidableEq

/-- The `for timer.Reset(ctxTimeout)` loop (part.go lines 227-248).  The
event list running out models the timer guard returning `false`. -/
def streamLoop : List ReadEv → StreamState → StreamState
  | [], st => st
  | .chunk bs :: evs, st =>
    let buf2 := st.buf ++ bs
    streamLoop evs
      { file := st.file ++ buf2, buf := [],
        written := st.written + buf2.length, max := bufSize, last := none }
  | .tempo bs e :: evs, st =>
    streamLoop evs
      { st with buf := st.buf ++ bs, max := st.max - bs.length, last := some e }
  | .eofEv bs :: _, st => { st with buf := st.buf ++ bs, last := some .eofErr }
  | .failEv bs e :: _, st => { st with buf := st.buf ++ bs, last := some e }

/-- The status switch of an attempt (part.go lines 178-203). -/
inductive StatusAction where
  /-- stream the body with this part state and `total`. -/
  | proceed (p : Part) (total : Int)
  /-- 200 on a non-zero part: set `Skip`, return `(false, nil)`. -/
  | skipReturn (p : Part)
  /-- `(false, errors.Errorf("unexpected status: %s", resp.Status))`. -/
  | fatal (e : GoErr)
  deriving Repr, DecidableEq

/-- `switch resp.StatusCode` (part.go lines 178-203): 200 → adopt (index 0)
or skip (other indices); 403/429 flash a final message then fall through to
the default, which fails unless the status is 206. -/
def handleStatus (p : Part) (total : Int) (status : Nat) (respContentLength : Int)
    (respStatusText : String) : StatusAction :=
  if status = 200 then
    if p.order ≠ 0 then .skipReturn { p with Skip := true }
    else .proceed { p with Stop := respContentLength - 1, Written := 0 } respContentLength
  else if status = 206 then .proceed p total
  else .fatal (errUnexpectedStatus respStatusText)

/-- What `client.Do` yields for one attempt. -/
inductive DoResult where
  /-- transport error: the callback returns `(true, err)`. -/
  | doErr (e : GoErr)
  /-- a response with its status, `ContentLength`, whether the (possibly
  proxied) body is nil, and the body read events. -/
  | resp (status : Nat) (statusText : String) (contentLength : Int)
      (bodyNil : Bool) (events : List ReadEv)
  deriving Repr, DecidableEq

/-- Result of one invocation of the retry callback. -/
structure AttemptOutput where
  /-- the `retry` component of the `(retry bool, err error)` pair. -/
  retry : Bool
  err : Option GoErr
  /-- whether an HTTP request was issued during this invocation. -/
  requested : Bool
  part : Part
  /-- the closure variable `total` of `Part.download` after the attempt. -/
  total : Int
  /-- segment file content after the attempt. -/
  file : List Nat
  deriving Repr, DecidableEq

/-- The retry callback (part.go lines 115-261) as a pure function of the
part state, the closure variable `total`, the attempt `count`, the network
oracle and the current segment file content. -/
def downloadAttempt (p : Part) (total : Int) (count : Nat) (net : DoResult)
    (file : List Nat) : AttemptOutput :=
  if count > p.maxTry then
    { retry := false, err := some ErrGiveUp, requested := false,
      part := p, total := total, file := file }
  else if p.isDone then
    { retry := false, err := none, requested := false,
      part := p, total := total, file := file }
  else
    match net with
    | .doErr e =>
      { retry := true, err := some e, requested := true,
        part := p, total := total, file := file }
    | .resp status statusText cl bodyNil events =>
      match handleStatus p total status cl statusText with
      | .skipReturn p' =>
        { retry := false, err := none, requested := true,
          part := p', total := total, file := file }
      | .fatal e =>
        { retry := false, err := some e, requested := true,
          part := p, total := total, file := file }
      | .proceed p1 total1 =>
        if bodyNil then
          { retry := false, err := some ErrNilBody, requested := true,
            part := p1, total := total1, file := file }
        else
          let st := streamLoop events
            { file := file, buf := [], written := p1.Written,
              max := bufSize, last := none }
          -- the drain after the loop (part.go lines 250-251)
          let file2 := st.file ++ st.buf
          let written2 := st.written + (st.buf.length : Int)
          let p2 := { p1 with Written := written2 }
          -- part.go lines 253-255: open-ended total fixes Stop after the fact
          let p3 := if total1 ≤ 0 then { p2 with Stop := written2 - 1 } else p2
          match st.last with
          | some .eofErr =>
            { retry := false, err := none, requested := true,
              part := p3, total := total1, file := file2 }
          | last =>
            { retry := !p3.isDone, err := last, requested := true,
              part := p3, total := total1, file := file2 }

/-- Result of the whole `backoff.Retry` loop. -/
structure LoopOutput where
  part : Part
  total : Int
  file : List Nat
  err : Option GoErr
  /-- number of HTTP requests issued. -/
  reqs : Nat
  deriving Repr, DecidableEq

/-- `backoff.Retry` (part.go line 112): call the callback with
`count = 0, 1, 2, …` until it returns `retry = false`; `env` is the network
oracle per attempt.  `fuel` bounds the recursion; with
`fuel ≥ p.maxTry + 2 - count` it never runs out, because the callback
refuses to retry once `count > maxTry`. -/
def downloadLoop (env : Nat → DoResult) : Nat → Nat → Part → Int → List Nat → LoopOutput
  | 0, _, p, total, file => { part := p, total := total, file := file, err := none, reqs := 0 }
  | fuel + 1, count, p, total, file =>
    let out := downloadAttempt p total count (env count) file
    let r : Nat := if out.requested then 1 else 0
    if out.retry then
      let rest := downloadLoop env fuel (count + 1) out.part out.total out.file
      { rest with reqs := r + rest.reqs }
    else
      { part := out.part, total := out.total, file := out.file, err := out.err, reqs := r }

/-! ## Session and orchestrator (`Cmd.Run`, getparty.go lines 117-330)

`Session`'s methods (`loadState`, `saveState`, `isAcceptRanges`,
`calcParts`, `totalWritten`, `actualPartsOnly`, `concatenateParts`,
`removeFiles`) live in `session.go`, which is not part of the provided
sources; the ones the orchestrator's decisions depend on are modelled from
the spec and marked as such.  `Cmd.Run` itself is in the sources and its
branching is translated directly; external interactions (worker results,
cancellation, filesystem errors) are oracle parameters, and filesystem
mutations are recorded as an effect list. -/

/-- `Session` (spec §3); `session.go` is not in the sources, but the field
set is fixed by the spec's table and by the uses in getparty.go. -/
structure Session where
  Location : String
  SuggestedFileName : String
  ContentMD5 : String
  AcceptRanges : String
  ContentType : String
  StatusCode : Nat
  ContentLength : Int
  HeaderMap : List (String × String)
  Parts : List Part
  deriving Repr, DecidableEq

/-- Modelled from the spec: `Session.isAcceptRanges` is in the missing
`session.go`; spec §3 — "AcceptRanges: token; `bytes` enables ranges". -/
def Session.isAcceptRanges (s : Session) : Bool := s.AcceptRanges = "bytes"

/-- Modelled from the spec: `Session.totalWritten` is in the missing
`session.go`; §4.5 compares "totalWritten" with ContentLength, the sum of
the parts' `Written`. -/
def Session.totalWritten (s : Session) : Int :=
  (s.Parts.map Part.Written).sum

/-- Modelled from the spec: `Session.actualPartsOnly` is in the missing
`session.go`; by its name and §4.5's "at least one part has data" it keeps
only the parts that have data (`Written > 0`). -/
def Session.actualPartsOnly (s : Session) : Session :=
  { s with Parts := s.Parts.filter (fun p => 0 < p.Written) }

/-- Modelled from the spec: `Session.calcParts` is in the missing
`session.go`; §4.3 Part Planner — `N ≤ 1` or `L ≤ 0` gives one open-ended
part with `Stop = 0`, otherwise `[0, L)` is split into `N` nearly equal
contiguous ranges, the last absorbing the remainder, with files
`<Suggested>.part<i>`. -/
def calcParts (suggested : String) (L : Int) (n : Nat) : List Part :=
  let mk : String → Int → Int → Part := fun name start stop =>
    { FileName := name, Start := start, Stop := stop, Written := 0,
      Skip := false, Elapsed := 0, order := 0, maxTry := 0 }
  if n ≤ 1 ∨ L ≤ 0 then [mk (suggested ++ ".part0") 0 0]
  else
    let size := L / (n : Int)
    (List.range n).map fun i =>
      let start := size * (i : Int)
      let stop := if i = n - 1 then L - 1 else start + size - 1
      mk (suggested ++ ".part" ++ toString i) start stop

/-- Filesystem / worker effects performed by `Cmd.Run` after `follow`
returned a fresh session.  Reads (state load, stat) are not mutations and
are not recorded. -/
inductive FsEffect where
  /-- `session.removeFiles()` on overwrite confirmation (getparty.go line 247). -/
  | removeFiles
  /-- a part worker goroutine started for part `i` (getparty.go line 291). -/
  | startWorker (i : Nat)
  /-- `session.concatenateParts` (getparty.go line 304). -/
  | concatenate
  /-- `session.saveState(name)` with `Location = loc` (getparty.go lines 321-323). -/
  | saveState (name : String) (loc : String)
  /-- `os.Remove(name)` of the resume sidecar (getparty.go line 312). -/
  | removeFile (name : String)
  deriving Repr, DecidableEq

/-- The exact message of the ContentMD5 mismatch error
(getparty.go lines 220-223). -/
def md5MismatchMsg (remote expected : String) : String :=
  "ContentMD5 mismatch: remote \"" ++ remote ++ "\" expected \"" ++ expected ++ "\""

/-- The exact message of the ContentLength mismatch error
(getparty.go lines 226-229). -/
def lenMismatchMsg (remote expected : Int) : String :=
  "ContentLength mismatch: remote " ++ toString remote ++ " expected " ++ toString expected

inductive SetupOutcome where
  /-- `return err`. -/
  | fail (e : GoErr)
  /-- the user declined the overwrite: `return nil` with no state change. -/
  | abortClean
  /-- continue into the worker fan-out with this session. -/
  | proceed (s : Session)
  deriving Repr, DecidableEq

/-- getparty.go lines 218-254: resume validation for `--continue` runs, or
fresh-session part planning and the overwrite prompt otherwise.
`optsParts` is `cmd.options.Parts`, `headerMap` the (User-Agent-completed)
header map, `outFileExists` the result of `os.Stat(SuggestedFileName)`,
`answer` what `fmt.Scanf` read at the prompt. -/
def sessionSetup (optsParts : Nat) (headerMap : List (String × String))
    (lastSession : Option Session) (fresh : Session)
    (outFileExists : Bool) (answer : String) : List FsEffect × SetupOutcome :=
  match lastSession with
  | some last =>
    if last.ContentMD5 ≠ fresh.ContentMD5 then
      ([], .fail (.fundamental (md5MismatchMsg fresh.ContentMD5 last.ContentMD5)))
    else if last.ContentLength ≠ fresh.ContentLength then
      ([], .fail (.fundamental (lenMismatchMsg fresh.ContentLength last.ContentLength)))
    else
      ([], .proceed { last with Location := fresh.Location })
  | none =>
    if 0 < optsParts then
      let n := if fresh.isAcceptRanges then optsParts else 1
      let s1 := { fresh with
        HeaderMap := headerMap,
        Parts := calcParts fresh.SuggestedFileName fresh.ContentLength n }
      if outFileExists then
        if answer.toLower = "y" ∨ answer.toLower = "yes" then
          ([.removeFiles], .proceed s1)
        else ([], .abortClean)
      else ([], .proceed s1)
    else ([], .proceed fresh)

/-- getparty.go lines 296-330: the decision after `eg.Wait()`.
`canceled` is `ctx.Err() == context.Canceled`, `workerErr` the join error,
`s` the session as mutated by the workers, `concatErr`/`removeErr`/`saveErr`
the filesystem oracles, `jsonFileName` is `cmd.options.JSONFileName` and
`userUrl` the user-typed URL restored into `Location` before saving. -/
def afterJoin (optsParts : Nat) (jsonFileName userUrl : String) (canceled : Bool)
    (workerErr : Option GoErr) (s : Session)
    (concatErr removeErr saveErr : Option GoErr) : List FsEffect × Option GoErr :=
  let s := s.actualPartsOnly
  let savePath : Option GoErr → List FsEffect × Option GoErr := fun err =>
    ([.saveState (s.SuggestedFileName ++ ".json") userUrl],
      match err with
      | some e => some e
      | none => saveErr)
  if workerErr.isSome && canceled then
    savePath (some errCanceledByUser)
  else if 0 < optsParts ∧ (s.totalWritten = s.ContentLength ∨ s.ContentLength ≤ 0) then
    match concatErr with
    | some e => ([.concatenate], some e)
    | none =>
      if jsonFileName ≠ "" then ([.concatenate, .removeFile jsonFileName], removeErr)
      else ([.concatenate], none)
  else
    savePath workerErr

/-- getparty.go lines 218-330 put together: session setup, worker fan-out
(one `startWorker` per not-done part), then the post-join decision.
`partsAfter` is the oracle for the parts' state once every worker has
returned. -/
def runAfterFollow (optsParts : Nat) (headerMap : List (String × String))
    (jsonFileName userUrl : String) (lastSession : Option Session) (fresh : Session)
    (outFileExists : Bool) (answer : String)
    (canceled : Bool) (workerErr : Option GoErr) (partsAfter : List Part)
    (concatErr removeErr saveErr : Option GoErr) : List FsEffect × Option GoErr :=
  match sessionSetup optsParts headerMap lastSession fresh outFileExists answer with
  | (effs, .fail e) => (effs, some e)
  | (effs, .abortClean) => (effs, none)
  | (effs, .proceed s) =>
    let workerEffs := (s.Parts.enum.filter (fun ip => !ip.2.isDone)).map
      (fun ip => FsEffect.startWorker ip.1)
    let (effs2, err) := afterJoin optsParts jsonFileName userUrl canceled workerErr
      { s with Parts := partsAfter } concatErr removeErr saveErr
    (effs ++ workerEffs ++ effs2, err)

/-! ## Mirror selector (`Cmd.bestMirror`, getparty.go lines 443-499) -/

/-- `unicode.IsSpace` restricted to ASCII, the alphabet used here. -/
def goIsSpace (c : Char) : Bool :=
  c = ' ' || c = '\t' || c = '\n' || c = '\r' || c = '\x0b' || c = '\x0c'

/-- `strings.TrimSpace`, at the character-list level. -/
def trimChars (l : List Char) : List Char :=
  ((l.dropWhile goIsSpace).reverse.dropWhile goIsSpace).reverse

/-- `strings.TrimSpace` on strings. -/
def goTrim (s : String) : String := ⟨trimChars s.data⟩

/-- `strings.HasPrefix`. -/
def goHasPrefix (s pre : String) : Bool := pre.data.isPrefixOf s.data

/-- `readLines` (getparty.go lines 551-562): trim each line, drop empty
lines and `#` comments. -/
def readLines (input : List String) : List String :=
  input.filterMap fun l =>
    let t := goTrim l
    if t.length = 0 || goHasPrefix t "#" then none else some t

/-- The shared deadline of the mirror race:
`context.WithTimeout(ctx, 15*time.Second)` (getparty.go line 457),
in milliseconds. -/
def mirrorDeadlineMs : Nat := 15000

/-- The network oracle for one candidate URL: whether `http.NewRequest`
succeeds, and at what time (ms from the start barrier) its GET observes a
200 response, if ever. -/
structure Probe where
  reqOk : Bool
  obs200 : Option Nat
  deriving Repr, DecidableEq

/-- The time at which a candidate writes its URL into the rendezvous
channel: its request must construct, and it must observe a 200 before the
shared deadline fires. -/
def succTime (pr : Probe) : Option Nat :=
  if pr.reqOk then
    match pr.obs200 with
    | some t => if t < mirrorDeadlineMs then some t else none
    | none => none
  else none

/-- The size-1 rendezvous channel: the temporally first success wins, ties
broken by first write (earlier list position).  This resolves the
concurrent `select` of getparty.go lines 484-488 deterministically given
the network outcome. -/
def raceWinner : List (String × Probe) → Option (Nat × String)
  | [] => none
  | (u, pr) :: rest =>
    match succTime pr, raceWinner rest with
    | none, w => w
    | some t, none => some (t, u)
    | some t, some (t', u') => if t ≤ t' then some (t, u) else some (t', u')

/-- `Cmd.bestMirror` (getparty.go lines 443-499): read candidate lines,
race the probes, return the winner with a nil error, or the deadline error
when no probe succeeds within the window. -/
def bestMirror (input : List String) (probes : String → Probe) : Except GoErr String :=
  let urls := readLines input
  match raceWinner (urls.map fun u => (u, probes u)) with
  | some (_, u) => .ok u
  | none => .error .deadlineExceeded

/-- helper: a terminal (non-redirect) status ends the follow loop at once. -/
theorem followGo_terminal (server : Nat → Nat) (i fuel : Nat)
    (hf : 0 < fuel) (h : isRedirect (server i) = false) :
    followGo server i fuel =
      if server i = 200 then .session (server i) else .unexpectedStatus (server i) := by
  cases fuel with
  | zero => exact absurd hf (by omega)
  | succ n => simp [followGo, h]

/-- helper: redirects are skipped one hop at a time. -/
theorem followGo_redirect (server : Nat → Nat) (i fuel : Nat)
    (h : isRedirect (server i) = true) :
    followGo server i (fuel + 1) = followGo server (i + 1) fuel := by
  simp [followGo, h]

/-- helper: the loop lands on the first non-redirect status. -/
theorem followGo_reaches (server : Nat → Nat) (j : Nat) :
    ∀ i fuel, j < fuel → (∀ k, k < j → isRedirect (server (i + k)) = true) →
    isRedirect (server (i + j)) = false →
    followGo server i fuel =
      if server (i + j) = 200 then FollowResult.session (server (i + j))
      else FollowResult.unexpectedStatus (server (i + j)) := by
  induction j with
  | zero =>
    intro i fuel hfuel _ hterm
    simpa using followGo_terminal server i fuel (by omega) (by simpa using hterm)
  | succ m ih =>
    intro i fuel hfuel hred hterm
    cases fuel with
    | zero => omega
    | succ n =>
      rw [followGo_redirect server i n (by simpa using hred 0 (by omega))]
      have := ih (i + 1) n (by omega)
        (fun k hk => by
          have := hred (k + 1) (by omega)
          simpa [Nat.add_assoc, Nat.add_comm 1 k] using this)
        (by
          have : i + 1 + m = i + (m + 1) := by omega
          rw [this]; exact hterm)
      simpa [show i + 1 + m = i + (m + 1) by omega] using this

/-- **C5, counterexample**: a terminal 204 No Content is a 2xx non-redirect
response, yet `follow` fails with "unexpected status" instead of producing a
Session: the resolver accepts exactly status 200, not all of 2xx. -/
theorem C5_counterexample :
    follow (fun _ => 204) = .unexpectedStatus 204 ∧
    200 ≤ 204 ∧ 204 ≤ 299 ∧ isRedirect 204 = false ∧
    follow (fun _ => 204) ≠ .session 204 := by decide

/-- **C5 (amended)**: classification of the resolver follow: a status is a
redirect iff 300 ≤ status ≤ 399; when hop `j < 10` is the first
non-redirect response, `follow` produces a Session iff that terminal status
is exactly 200, and fails with "unexpected status" for every other terminal
status (2xx other than 200 included). -/
theorem C5_follow_terminal (server : Nat → Nat) (j : Nat) (st : Nat)
    (hj : j < maxRedirects)
    (hred : ∀ k, k < j → isRedirect (server k) = true)
    (hterm : isRedirect (server j) = false) :
    (isRedirect st = true ↔ 300 ≤ st ∧ st ≤ 399) ∧
    (follow server = .session (server j) ↔ server j = 200) ∧
    (server j ≠ 200 → follow server = .unexpectedStatus (server j)) := by
  have hmain := followGo_reaches server j 0 maxRedirects hj
    (fun k hk => by simpa using hred k hk) (by simpa using hterm)
  simp only [Nat.zero_add] at hmain
  refine ⟨?_, ?_, ?_⟩
  · unfold isRedirect
    simp only [Bool.and_eq_true, decide_eq_true_eq]
    omega
  · unfold follow
    rw [hmain]
    constructor
    · intro h
      by_contra hne
      rw [if_neg hne] at h
      exact FollowResult.noConfusion h
    · intro h; rw [if_pos h]
  · intro h
    unfold follow
    rw [hmain, if_neg h]

/-- **C5 witness**: a direct 200 answer yields a Session. -/
theorem C5_witness : follow (fun _ => 200) = .session 200 :=
  ((C5_follow_terminal (fun _ => 200) 0 300 (by decide)
      (fun k hk => absurd hk (Nat.not_lt_zero k)) (by decide)).2.1).mpr rfl

/-- **C1, counterexample**: `ErrGiveUp` and the resolver's "unexpected
status" error are plain `errors.New`/`errors.Errorf` values, not
`ExpectedError`, so `Cmd.Exit` maps the give-up and non-2xx-response errors
returned by `Run` to exit code 3, where the claim demands 1. -/
theorem C1_counterexample :
    Cmd.Exit (runWrap (some (.withMessage "P01" ErrGiveUp))) = 3 ∧
    Cmd.Exit (runWrap (some (.withMessage "follow"
      (errUnexpectedStatus "404 Not Found")))) = 3 ∧
    (3 : Nat) ≠ 1 := by decide

/-- **C1 (amended)**: `Cmd.Exit` maps a nil error and a help request to 0, a
CLI usage error to 2, and every `ExpectedError` cause — cancellation by the
user and maximum redirects followed — to 1; every other cause, give-up after
retries and a non-200 terminal response included, exits 3. -/
theorem C1_exit_code_map (m m' s : String) (inner : GoErr) :
    Cmd.Exit none = 0 ∧
    Cmd.Exit (runWrap (some (.flagsError true))) = 0 ∧
    Cmd.Exit (runWrap (some (.flagsError false))) = 2 ∧
    Cmd.Exit (runWrap (some (.expected inner))) = 1 ∧
    Cmd.Exit (runWrap (some errCanceledByUser)) = 1 ∧
    Cmd.Exit (runWrap (some (.withMessage m errMaxRedirects))) = 1 ∧
    Cmd.Exit (runWrap (some (.withMessage m (.withMessage m' ErrGiveUp)))) = 3 ∧
    Cmd.Exit (runWrap (some (.withMessage m (errUnexpectedStatus s)))) = 3 :=
  ⟨rfl, rfl, rfl, rfl, rfl, rfl, rfl, rfl⟩

/-- **C6**: a `Part` is done iff `Skip` is set or `Written > Stop − Start`,
and the retry callback on an already-done part (within the retry budget)
issues no HTTP request and returns success with everything unchanged. -/
theorem C6_done_predicate (p : Part) (total : Int) (count : Nat)
    (net : DoResult) (file : List Nat) (hc : count ≤ p.maxTry) :
    (p.isDone = true ↔ (p.Skip = true ∨ p.Stop - p.Start < p.Written)) ∧
    (p.isDone = true →
      downloadAttempt p total count net file =
        { retry := false, err := none, requested := false,
          part := p, total := total, file := file }) := by
  constructor
  · simp [Part.isDone]
  · intro hd
    simp [downloadAttempt, Nat.not_lt.mpr hc, hd]

/-- **C6 witness**: a skipped part with one retry allowed is done, and the
attempt at count 0 does nothing. -/
theorem C6_witness :
    ({ FileName := "f.part0", Start := 0, Stop := 9, Written := 0, Skip := true,
       Elapsed := 0, order := 0, maxTry := 1 : Part }).isDone = true ∧
    downloadAttempt
        { FileName := "f.part0", Start := 0, Stop := 9, Written := 0, Skip := true,
          Elapsed := 0, order := 0, maxTry := 1 } 10 0 (.doErr .canceled) [] =
      { retry := false, err := none, requested := false,
        part := { FileName := "f.part0", Start := 0, Stop := 9, Written := 0,
                  Skip := true, Elapsed := 0, order := 0, maxTry := 1 },
        total := 10, file := [] } :=
  ⟨by decide,
    (C6_done_predicate _ 10 0 (.doErr .canceled) [] (by decide)).2 (by decide)⟩

/-- **C4**: status handling of one attempt: a 200 on part index 0 adopts the
response — total becomes the response ContentLength, Stop := total − 1,
Written := 0 — and streaming proceeds; a 200 on any other index sets Skip
and the attempt returns success at once; any status other than 200 and 206
fails the attempt with "unexpected status" and is not retried. -/
theorem C4_status_dispatch (p : Part) (total cl : Int) (status : Nat)
    (statusText : String) (count : Nat) (bodyNil : Bool) (evs : List ReadEv)
    (file : List Nat) (hc : count ≤ p.maxTry) (hnd : p.isDone = false) :
    (p.order = 0 →
      handleStatus p total 200 cl statusText =
        .proceed { p with Stop := cl - 1, Written := 0 } cl) ∧
    (p.order ≠ 0 →
      downloadAttempt p total count (.resp 200 statusText cl bodyNil evs) file =
        { retry := false, err := none, requested := true,
          part := { p with Skip := true }, total := total, file := file }) ∧
    (status ≠ 200 → status ≠ 206 →
      downloadAttempt p total count (.resp status statusText cl bodyNil evs) file =
        { retry := false, err := some (errUnexpectedStatus statusText),
          requested := true, part := p, total := total, file := file }) := by
  refine ⟨?_, ?_, ?_⟩
  · intro h0
    simp [handleStatus, h0]
  · intro hord
    simp [downloadAttempt, Nat.not_lt.mpr hc, hnd, handleStatus, hord]
  · intro h200 h206
    simp [downloadAttempt, Nat.not_lt.mpr hc, hnd, handleStatus, h200, h206]

/-- **C4 witness**: a 200 on part index 1 sets Skip and succeeds. -/
theorem C4_witness :
    downloadAttempt
        { FileName := "f.part1", Start := 5, Stop := 9, Written := 0, Skip := false,
          Elapsed := 0, order := 1, maxTry := 10 } 5 0
        (.resp 200 "200 OK" 10 false []) [] =
      { retry := false, err := none, requested := true,
        part := { FileName := "f.part1", Start := 5, Stop := 9, Written := 0,
                  Skip := true, Elapsed := 0, order := 1, maxTry := 10 },
        total := 5, file := [] } :=
  (C4_status_dispatch
    { FileName := "f.part1", Start := 5, Stop := 9, Written := 0, Skip := false,
      Elapsed := 0, order := 1, maxTry := 10 } 5 10 204 "204 No Content" 0 false [] []
    (by decide) (by decide)).2.1 (by decide)

/-- helper: a signed 64-bit reinterpretation is the identity on `[0, 2^63)`. -/
theorem i64wrap_eq_self (z : Int) (h0 : 0 ≤ z)
    (h : z < 9223372036854775808) : i64wrap z = z := by
  unfold i64wrap
  rw [Int.emod_eq_of_lt h0 (by norm_num; omega)]
  norm_num
  omega

/-- **C8, counterexample**: at base timeout 15 s and count 31 the product
`2^30 · 15` seconds overflows the signed 64-bit nanosecond representation:
the armed deadline is a negative duration (the timer fires immediately)
instead of the claimed 10-minute cap. -/
theorem C8_counterexample :
    attemptTimeoutNs 15 31 = -2340616713709551616 ∧
    attemptTimeoutNs 15 31 < 0 ∧
    (min (2 ^ (31 - 1) * 15) 600 : Int) * second = 600 * second ∧
    attemptTimeoutNs 15 31 ≠ (min (2 ^ (31 - 1) * 15) 600 : Int) * second := by
  refine ⟨by decide, by decide, by decide, by decide⟩

/-- **C8 (amended)**: whenever `T · 2^(count−1)` seconds fits the signed
64-bit nanosecond representation (no overflow), the armed deadline for an
attempt with count ≥ 1 is `T · 2^(count−1)` seconds capped at 10 minutes,
and the attempt with count 0 uses exactly `T` seconds.  Outside that range
the fixed-width arithmetic wraps and the capped formula can fail — the
counterexample has `T = 15`, `count = 31` arm a negative, immediately
firing deadline — though some overflowed counts still happen to land on
the cap. -/
theorem C8_deadline_formula (T count : Nat) (h1 : 1 ≤ count)
    (h2 : 2 ^ (count - 1) * T * 1000000000 < 2 ^ 63) :
    attemptTimeoutNs T count = min ((2 ^ (count - 1) * T : Nat) : Int) 600 * second ∧
    (T * 1000000000 < 2 ^ 63 → attemptTimeoutNs T 0 = (T : Int) * second) := by
  have hsec : second = 1000000000 := rfl
  have hten : tenMinutes = 600000000000 := rfl
  constructor
  · have hb : 2 ^ (count - 1) * T * 1000000000 < 9223372036854775808 := by
      have he : (2:Nat) ^ 63 = 9223372036854775808 := by norm_num
      omega
    have hle : 2 ^ (count - 1) * T ≤ 2 ^ (count - 1) * T * 1000000000 :=
      Nat.le_mul_of_pos_right _ (by norm_num)
    have hA64 : (2 ^ (count - 1) * T) % 2 ^ 64 = 2 ^ (count - 1) * T := by
      apply Nat.mod_eq_of_lt
      have he : (2:Nat) ^ 64 = 18446744073709551616 := by norm_num
      omega
    have hc1 : ((2 ^ (count - 1) * T : Nat) : Int) < 9223372036854775808 := by
      exact_mod_cast Nat.lt_of_le_of_lt hle hb
    have hw1 : i64wrap ((2 ^ (count - 1) * T : Nat) : Int) =
        ((2 ^ (count - 1) * T : Nat) : Int) :=
      i64wrap_eq_self _ (Int.ofNat_nonneg _) hc1
    have hc2 : ((2 ^ (count - 1) * T : Nat) : Int) * second < 9223372036854775808 := by
      rw [hsec]
      exact_mod_cast hb
    have hw2 : i64wrap (((2 ^ (count - 1) * T : Nat) : Int) * second) =
        ((2 ^ (count - 1) * T : Nat) : Int) * second :=
      i64wrap_eq_self _ (by rw [hsec]; exact mul_nonneg (Int.ofNat_nonneg _) (by norm_num)) hc2
    unfold attemptTimeoutNs
    rw [if_neg (by omega)]
    simp only [hA64, hw1, hw2]
    rcases le_or_lt ((2 ^ (count - 1) * T : Nat) : Int) 600 with hm | hm
    · rw [if_neg (by rw [hsec, hten]; omega), min_eq_left hm]
    · rw [if_pos (by rw [hsec, hten]; omega), min_eq_right hm.le, hten, hsec]
      norm_num
  · intro h0
    have hb0 : T * 1000000000 < 9223372036854775808 := by
      have he : (2:Nat) ^ 63 = 9223372036854775808 := by norm_num
      omega
    have hT : (T : Int) < 9223372036854775808 := by
      have : T ≤ T * 1000000000 := Nat.le_mul_of_pos_right _ (by norm_num)
      exact_mod_cast Nat.lt_of_le_of_lt this hb0
    unfold attemptTimeoutNs
    rw [if_pos rfl, i64wrap_eq_self _ (Int.ofNat_nonneg _) hT]
    exact i64wrap_eq_self _
      (by rw [hsec]; exact mul_nonneg (Int.ofNat_nonneg _) (by norm_num))
      (by rw [hsec]; exact_mod_cast hb0)

/-- **C8 witness**: at base timeout 15 s, count 7 is capped to 10 minutes
and count 0 uses 15 s exactly. -/
theorem C8_witness :
    attemptTimeoutNs 15 7 = min ((2 ^ (7 - 1) * 15 : Nat) : Int) 600 * second ∧
    attemptTimeoutNs 15 0 = (15 : Int) * second :=
  ⟨(C8_deadline_formula 15 7 (by decide) (by decide)).1,
   (C8_deadline_formula 15 7 (by decide) (by decide)).2 (by decide)⟩

/-- helper: the status switch never changes the part's retry bound. -/
theorem handleStatus_part_maxTry (p : Part) (total : Int) (status : Nat) (cl : Int)
    (stx : String) :
    (∀ p1 t1, handleStatus p total status cl stx = .proceed p1 t1 → p1.maxTry = p.maxTry) ∧
    (∀ p1, handleStatus p total status cl stx = .skipReturn p1 → p1.maxTry = p.maxTry) := by
  constructor
  · intro p1 t1 h
    unfold handleStatus at h
    split_ifs at h <;> (cases h <;> rfl)
  · intro p1 h
    unfold handleStatus at h
    split_ifs at h <;> (cases h <;> rfl)

/-- helper: no attempt changes the retry bound stored in the part. -/
theorem downloadAttempt_maxTry (p : Part) (total : Int) (count : Nat)
    (net : DoResult) (file : List Nat) :
    (downloadAttempt p total count net file).part.maxTry = p.maxTry := by
  unfold downloadAttempt
  split
  · rfl
  split
  · rfl
  cases net with
  | doErr e => rfl
  | resp status stx cl bodyNil events =>
    simp only
    rcases hhs : handleStatus p total status cl stx with ⟨p1, t1⟩ | p1 | e
    · have hp1 := (handleStatus_part_maxTry p total status cl stx).1 p1 t1 hhs
      simp only [hhs]
      split
      · exact hp1
      · split
        · split <;> exact hp1
        · split <;> exact hp1
    · have hp1 := (handleStatus_part_maxTry p total status cl stx).2 p1 hhs
      simp only [hhs]
      exact hp1
    · simp only [hhs]

/-- helper: starting at attempt `count`, the loop issues at most
`maxTry + 1 − count` HTTP requests. -/
theorem downloadLoop_reqs_le (env : Nat → DoResult) :
    ∀ fuel count (p : Part) (total : Int) (file : List Nat),
      (downloadLoop env fuel count p total file).reqs ≤ p.maxTry + 1 - count := by
  intro fuel
  induction fuel with
  | zero => intro count p total file; simp [downloadLoop]
  | succ n ih =>
    intro count p total file
    unfold downloadLoop
    rcases Nat.lt_or_ge p.maxTry count with hgt | hle
    · have hA : downloadAttempt p total count (env count) file =
          { retry := false, err := some ErrGiveUp, requested := false,
            part := p, total := total, file := file } := by
        unfold downloadAttempt
        rw [if_pos hgt]
      rw [hA]
      simp
    · have hm := downloadAttempt_maxTry p total count (env count) file
      set out := downloadAttempt p total count (env count) file with hout
      by_cases hr : out.retry
      · rw [if_pos hr]
        have := ih (count + 1) out.part out.total out.file
        rw [hm] at this
        have hreq : (if out.requested then 1 else 0) ≤ 1 := by
          split <;> omega
        simp only
        omega
      · rw [if_neg hr]
        have hreq : (if out.requested then 1 else 0) ≤ 1 := by
          split <;> omega
        simp only
        omega

/-- **C7**: the retry callback invoked with a count exceeding MaxRetry
returns GiveUp at once without issuing a request, and the whole retry loop
issues at most MaxRetry + 1 HTTP attempts. -/
theorem C7_give_up_bound (p : Part) (total : Int) (count : Nat) (net : DoResult)
    (file : List Nat) (env : Nat → DoResult) (fuel : Nat)
    (h : p.maxTry < count) :
    downloadAttempt p total count net file =
      { retry := false, err := some ErrGiveUp, requested := false,
        part := p, total := total, file := file } ∧
    (0 < fuel → (downloadLoop env fuel count p total file).err = some ErrGiveUp ∧
      (downloadLoop env fuel count p total file).reqs = 0) ∧
    (downloadLoop env fuel 0 p total file).reqs ≤ p.maxTry + 1 := by
  have hA : ∀ net2, downloadAttempt p total count net2 file =
      { retry := false, err := some ErrGiveUp, requested := false,
        part := p, total := total, file := file } := by
    intro net2
    unfold downloadAttempt
    rw [if_pos h]
  refine ⟨hA net, ?_, ?_⟩
  · intro hf
    cases fuel with
    | zero => omega
    | succ n =>
      unfold downloadLoop
      rw [hA (env count)]
      simp
  · have := downloadLoop_reqs_le env fuel 0 p total file
    omega

/-- **C7 witness**: with MaxRetry = 1, the callback at count 2 gives up
without a request, the loop from count 2 ends in GiveUp, and the loop from
count 0 issues at most 2 requests. -/
theorem C7_witness :
    downloadAttempt
        { FileName := "f.part0", Start := 0, Stop := 9, Written := 0, Skip := false,
          Elapsed := 0, order := 0, maxTry := 1 } 10 2 (.doErr .canceled) [] =
      { retry := false, err := some ErrGiveUp, requested := false,
        part := { FileName := "f.part0", Start := 0, Stop := 9, Written := 0,
                  Skip := false, Elapsed := 0, order := 0, maxTry := 1 },
        total := 10, file := [] } ∧
    (0 < 5 → (downloadLoop (fun _ => .doErr .canceled) 5 2
        { FileName := "f.part0", Start := 0, Stop := 9, Written := 0, Skip := false,
          Elapsed := 0, order := 0, maxTry := 1 } 10 []).err = some ErrGiveUp ∧
      (downloadLoop (fun _ => .doErr .canceled) 5 2
        { FileName := "f.part0", Start := 0, Stop := 9, Written := 0, Skip := false,
          Elapsed := 0, order := 0, maxTry := 1 } 10 []).reqs = 0) ∧
    (downloadLoop (fun _ => .doErr .canceled) 5 0
        { FileName := "f.part0", Start := 0, Stop := 9, Written := 0, Skip := false,
          Elapsed := 0, order := 0, maxTry := 1 } 10 []).reqs ≤ 1 + 1 :=
  C7_give_up_bound _ 10 2 (.doErr .canceled) [] (fun _ => .doErr .canceled) 5 (by decide)

/-- helper: the streaming loop only ever appends to the segment file. -/
theorem streamLoop_appends (evs : List ReadEv) (st : StreamState) :
    st.file <+: (streamLoop evs st).file := by
  induction evs generalizing st with
  | nil => simp [streamLoop]
  | cons ev evs ih =>
    cases ev with
    | chunk bs =>
      refine List.IsPrefix.trans ?_ (ih _)
      exact List.prefix_append _ _
    | tempo bs e =>
      simp only [streamLoop]
      exact ih { st with buf := st.buf ++ bs, max := st.max - bs.length, last := some e }
    | eofEv bs => simp [streamLoop]
    | failEv bs e => simp [streamLoop]

/-- helper: one attempt only ever appends to the segment file. -/
theorem downloadAttempt_appends (p : Part) (total : Int) (count : Nat)
    (net : DoResult) (file : List Nat) :
    file <+: (downloadAttempt p total count net file).file := by
  unfold downloadAttempt
  split
  · exact List.prefix_refl _
  split
  · exact List.prefix_refl _
  cases net with
  | doErr e => exact List.prefix_refl _
  | resp status stx cl bodyNil events =>
    simp only
    rcases hhs : handleStatus p total status cl stx with ⟨p1, t1⟩ | p1 | e
    · simp only [hhs]
      split
      · exact List.prefix_refl _
      · have hstream := streamLoop_appends events
          { file := file, buf := [], written := p1.Written, max := bufSize, last := none }
        split
        · exact hstream.trans (List.prefix_append _ _)
        · exact hstream.trans (List.prefix_append _ _)
    · simp only [hhs]
      exact List.prefix_refl _
    · simp only [hhs]
      exact List.prefix_refl _

/-- helper: the whole retry loop only ever appends to the segment file. -/
theorem downloadLoop_appends (env : Nat → DoResult) :
    ∀ fuel count (p : Part) (total : Int) (file : List Nat),
      file <+: (downloadLoop env fuel count p total file).file := by
  intro fuel
  induction fuel with
  | zero => intro _ _ _ _; simp [downloadLoop]
  | succ n ih =>
    intro count p total file
    unfold downloadLoop
    by_cases hr : (downloadAttempt p total count (env count) file).retry
    · rw [if_pos hr]
      exact (downloadAttempt_appends p total count (env count) file).trans
        (ih (count + 1) _ _ _)
    · rw [if_neg hr]
      exact downloadAttempt_appends p total count (env count) file

/-- **C10**: the segment file is opened once in append-create-write mode
(no truncation flag); every attempt and the whole retry loop leave the
previous file content as a prefix of the new content; and a 200 adoption by
part index 0 resets `Written` to 0 without touching the file. -/
theorem C10_append_only (p : Part) (total cl : Int) (count : Nat) (net : DoResult)
    (file : List Nat) (env : Nat → DoResult) (fuel : Nat) (stx : String) :
    segmentOpenMode.append = true ∧ segmentOpenMode.create = true ∧
    segmentOpenMode.writeOnly = true ∧ segmentOpenMode.truncate = false ∧
    file <+: (downloadAttempt p total count net file).file ∧
    file <+: (downloadLoop env fuel 0 p total file).file ∧
    (p.order = 0 → p.isDone = false → count ≤ p.maxTry →
      (downloadAttempt p total count (.resp 200 stx cl false []) file).part.Written = 0 ∧
      (downloadAttempt p total count (.resp 200 stx cl false []) file).file = file) := by
  refine ⟨rfl, rfl, rfl, rfl,
    downloadAttempt_appends p total count net file,
    downloadLoop_appends env fuel 0 p total file, ?_⟩
  intro h0 hnd hc
  have hns : ¬ count > p.maxTry := by omega
  have hhs : handleStatus p total 200 cl stx =
      .proceed { p with Stop := cl - 1, Written := 0 } cl := by
    simp [handleStatus, h0]
  simp only [downloadAttempt, hns, if_false, hnd, hhs, streamLoop,
    Bool.false_eq_true, List.length_nil, List.append_nil, Nat.cast_zero,
    add_zero]
  refine ⟨?_, trivial⟩
  split <;> rfl

/-- **C10 witness**: a concrete attempt appends to the file, and a 200
adoption with an empty body leaves the file untouched with Written 0. -/
theorem C10_witness :
    [1, 2] <+: (downloadAttempt
      { FileName := "f.part0", Start := 0, Stop := 3, Written := 0, Skip := false,
        Elapsed := 0, order := 0, maxTry := 10 } 5 0
      (.resp 200 "200 OK" 4 false [.chunk [7, 8], .eofEv []]) [1, 2]).file ∧
    (downloadAttempt
      { FileName := "f.part0", Start := 0, Stop := 3, Written := 0, Skip := false,
        Elapsed := 0, order := 0, maxTry := 10 } 5 0
      (.resp 200 "200 OK" 4 false []) [1, 2]).part.Written = 0 ∧
    (downloadAttempt
      { FileName := "f.part0", Start := 0, Stop := 3, Written := 0, Skip := false,
        Elapsed := 0, order := 0, maxTry := 10 } 5 0
      (.resp 200 "200 OK" 4 false []) [1, 2]).file = [1, 2] :=
  have h := C10_append_only
    { FileName := "f.part0", Start := 0, Stop := 3, Written := 0, Skip := false,
      Elapsed := 0, order := 0, maxTry := 10 } 5 4 0
    (.resp 200 "200 OK" 4 false [.chunk [7, 8], .eofEv []]) [1, 2]
    (fun _ => .doErr .canceled) 3 "200 OK"
  ⟨h.2.2.2.2.1,
   (h.2.2.2.2.2.2 rfl (by decide) (by decide)).1,
   (h.2.2.2.2.2.2 rfl (by decide) (by decide)).2⟩

/-- **C2**: on a `--continue` run whose freshly resolved session disagrees
with the loaded one on ContentMD5 or ContentLength, `Run` fails with the
descriptive mismatch error and performs no filesystem mutation and starts
no part worker (empty effect list). -/
theorem C2_resume_mismatch_guard (optsParts : Nat) (hm : List (String × String))
    (jsonFileName userUrl : String) (last fresh : Session)
    (outFileExists : Bool) (answer : String) (canceled : Bool)
    (workerErr : Option GoErr) (partsAfter : List Part)
    (concatErr removeErr saveErr : Option GoErr)
    (h : last.ContentMD5 ≠ fresh.ContentMD5 ∨ last.ContentLength ≠ fresh.ContentLength) :
    (runAfterFollow optsParts hm jsonFileName userUrl (some last) fresh outFileExists
        answer canceled workerErr partsAfter concatErr removeErr saveErr).1 = [] ∧
    (last.ContentMD5 ≠ fresh.ContentMD5 →
      (runAfterFollow optsParts hm jsonFileName userUrl (some last) fresh outFileExists
          answer canceled workerErr partsAfter concatErr removeErr saveErr).2 =
        some (.fundamental (md5MismatchMsg fresh.ContentMD5 last.ContentMD5))) ∧
    (last.ContentMD5 = fresh.ContentMD5 → last.ContentLength ≠ fresh.ContentLength →
      (runAfterFollow optsParts hm jsonFileName userUrl (some last) fresh outFileExists
          answer canceled workerErr partsAfter concatErr removeErr saveErr).2 =
        some (.fundamental (lenMismatchMsg fresh.ContentLength last.ContentLength))) := by
  by_cases hmd5 : last.ContentMD5 = fresh.ContentMD5
  · have hlen : last.ContentLength ≠ fresh.ContentLength := by tauto
    refine ⟨?_, fun hmd5n => absurd hmd5 hmd5n, fun _ _ => ?_⟩ <;>
      simp [runAfterFollow, sessionSetup, hmd5, hlen]
  · refine ⟨?_, fun _ => ?_, fun hmd5e _ => absurd hmd5e hmd5⟩ <;>
      simp [runAfterFollow, sessionSetup, hmd5]

/-- **C2 witness**: a concrete MD5 mismatch is rejected with no effects. -/
theorem C2_witness :
    (runAfterFollow 2 [] "s.json" "http://u"
        (some { Location := "http://x", SuggestedFileName := "f", ContentMD5 := "a",
                AcceptRanges := "bytes", ContentType := "", StatusCode := 200,
                ContentLength := 10, HeaderMap := [], Parts := [] })
        { Location := "http://x", SuggestedFileName := "f", ContentMD5 := "b",
          AcceptRanges := "bytes", ContentType := "", StatusCode := 200,
          ContentLength := 10, HeaderMap := [], Parts := [] }
        false "" false none [] none none none).1 = [] ∧
    (runAfterFollow 2 [] "s.json" "http://u"
        (some { Location := "http://x", SuggestedFileName := "f", ContentMD5 := "a",
                AcceptRanges := "bytes", ContentType := "", StatusCode := 200,
                ContentLength := 10, HeaderMap := [], Parts := [] })
        { Location := "http://x", SuggestedFileName := "f", ContentMD5 := "b",
          AcceptRanges := "bytes", ContentType := "", StatusCode := 200,
          ContentLength := 10, HeaderMap := [], Parts := [] }
        false "" false none [] none none none).2 =
      some (.fundamental (md5MismatchMsg "b" "a")) :=
  have h := C2_resume_mismatch_guard 2 [] "s.json" "http://u"
    { Location := "http://x", SuggestedFileName := "f", ContentMD5 := "a",
      AcceptRanges := "bytes", ContentType := "", StatusCode := 200,
      ContentLength := 10, HeaderMap := [], Parts := [] }
    { Location := "http://x", SuggestedFileName := "f", ContentMD5 := "b",
      AcceptRanges := "bytes", ContentType := "", StatusCode := 200,
      ContentLength := 10, HeaderMap := [], Parts := [] }
    false "" false none [] none none none (Or.inl (by decide))
  ⟨h.1, h.2.1 (by decide)⟩

/-- **C3, counterexample**: with ContentLength −1, a positive parts option,
no cancellation and no part holding any data, the code still invokes part
concatenation, where the claim requires at least one part with data for the
`ContentLength ≤ 0` arm and otherwise a session-sidecar save. -/
theorem C3_counterexample :
    (afterJoin 2 "" "http://u" false none
      { Location := "http://x", SuggestedFileName := "f", ContentMD5 := "",
        AcceptRanges := "", ContentType := "", StatusCode := 200,
        ContentLength := -1, HeaderMap := [],
        Parts := [{ FileName := "f.part0", Start := 0, Stop := 0, Written := 0,
                    Skip := false, Elapsed := 0, order := 0, maxTry := 10 }] }
      none none none).1 = [.concatenate] ∧
    ({ Location := "http://x", SuggestedFileName := "f", ContentMD5 := "",
       AcceptRanges := "", ContentType := "", StatusCode := 200,
       ContentLength := -1, HeaderMap := [],
       Parts := [{ FileName := "f.part0", Start := 0, Stop := 0, Written := 0,
                   Skip := false, Elapsed := 0, order := 0, maxTry := 10 }] } :
      Session).totalWritten ≠ (-1 : Int) ∧
    ({ Location := "http://x", SuggestedFileName := "f", ContentMD5 := "",
       AcceptRanges := "", ContentType := "", StatusCode := 200,
       ContentLength := -1, HeaderMap := [],
       Parts := [{ FileName := "f.part0", Start := 0, Stop := 0, Written := 0,
                   Skip := false, Elapsed := 0, order := 0, maxTry := 10 }] } :
      Session).Parts.all (fun p => p.Written ≤ 0) = true := by
  refine ⟨by decide, by decide, by decide⟩

/-- **C3 (amended)**: after the join, concatenation is invoked exactly when
the run is not in the failed-and-canceled state, the parts option is
positive, and totalWritten equals ContentLength or ContentLength ≤ 0 — with
no requirement that any part holds data; in every other case the session
sidecar `<SuggestedFileName>.json` is saved with Location restored to the
user-typed URL. -/
theorem C3_concat_decision (optsParts : Nat) (jsonFileName userUrl : String)
    (canceled : Bool) (workerErr : Option GoErr) (s : Session)
    (concatErr removeErr saveErr : Option GoErr) :
    (FsEffect.concatenate ∈ (afterJoin optsParts jsonFileName userUrl canceled
        workerErr s concatErr removeErr saveErr).1 ↔
      ¬(workerErr.isSome = true ∧ canceled = true) ∧ 0 < optsParts ∧
        (s.actualPartsOnly.totalWritten = s.ContentLength ∨ s.ContentLength ≤ 0)) ∧
    ((workerErr.isSome = true ∧ canceled = true) ∨
        ¬(0 < optsParts ∧ (s.actualPartsOnly.totalWritten = s.ContentLength ∨
          s.ContentLength ≤ 0)) →
      (afterJoin optsParts jsonFileName userUrl canceled workerErr s concatErr
          removeErr saveErr).1 =
        [.saveState (s.SuggestedFileName ++ ".json") userUrl]) := by
  simp only [afterJoin]
  rw [show s.actualPartsOnly.ContentLength = s.ContentLength from rfl,
    show s.actualPartsOnly.SuggestedFileName = s.SuggestedFileName from rfl]
  by_cases hcc : workerErr.isSome = true ∧ canceled = true
  · rw [if_pos (by simp [hcc.1, hcc.2])]
    constructor
    · simp [hcc]
    · intro _
      rfl
  · rw [if_neg (by simpa using hcc)]
    by_cases hgo : 0 < optsParts ∧ (s.actualPartsOnly.totalWritten = s.ContentLength ∨
        s.ContentLength ≤ 0)
    · rw [if_pos hgo]
      constructor
      · cases concatErr with
        | some e => simp [hcc, hgo]
        | none =>
          by_cases hj : jsonFileName ≠ "" <;> simp [hj, hcc, hgo]
      · intro hsave
        rcases hsave with hx | hx
        · exact absurd hx hcc
        · exact absurd hgo hx
    · rw [if_neg hgo]
      constructor
      · simp [hcc, hgo]
      · intro _
        rfl

/-- **C3 witness**: data matching ContentLength concatenates; with the
parts option 0 the sidecar is saved with the user URL instead. -/
theorem C3_witness :
    FsEffect.concatenate ∈ (afterJoin 2 "" "http://u" false none
      { Location := "http://x", SuggestedFileName := "f", ContentMD5 := "",
        AcceptRanges := "bytes", ContentType := "", StatusCode := 200,
        ContentLength := 5, HeaderMap := [],
        Parts := [{ FileName := "f.part0", Start := 0, Stop := 4, Written := 5,
                    Skip := false, Elapsed := 0, order := 0, maxTry := 10 }] }
      none none none).1 ∧
    (afterJoin 0 "" "http://u" false none
      { Location := "http://x", SuggestedFileName := "f", ContentMD5 := "",
        AcceptRanges := "bytes", ContentType := "", StatusCode := 200,
        ContentLength := 5, HeaderMap := [],
        Parts := [{ FileName := "f.part0", Start := 0, Stop := 4, Written := 5,
                    Skip := false, Elapsed := 0, order := 0, maxTry := 10 }] }
      none none none).1 = [.saveState "f.json" "http://u"] :=
  ⟨(C3_concat_decision 2 "" "http://u" false none
      { Location := "http://x", SuggestedFileName := "f", ContentMD5 := "",
        AcceptRanges := "bytes", ContentType := "", StatusCode := 200,
        ContentLength := 5, HeaderMap := [],
        Parts := [{ FileName := "f.part0", Start := 0, Stop := 4, Written := 5,
                    Skip := false, Elapsed := 0, order := 0, maxTry := 10 }] }
      none none none).1.mpr ⟨by decide, by decide, by decide⟩,
   (C3_concat_decision 0 "" "http://u" false none
      { Location := "http://x", SuggestedFileName := "f", ContentMD5 := "",
        AcceptRanges := "bytes", ContentType := "", StatusCode := 200,
        ContentLength := 5, HeaderMap := [],
        Parts := [{ FileName := "f.part0", Start := 0, Stop := 4, Written := 5,
                    Skip := false, Elapsed := 0, order := 0, maxTry := 10 }] }
      none none none).2 (Or.inr (by decide))⟩

/-- helper: the race has no winner iff no candidate succeeds in time. -/
theorem raceWinner_none_iff (l : List (String × Probe)) :
    raceWinner l = none ↔ ∀ x ∈ l, succTime x.2 = none := by
  induction l with
  | nil => simp [raceWinner]
  | cons hd tl ih =>
    obtain ⟨u, pr⟩ := hd
    unfold raceWinner
    cases hst : succTime pr with
    | none =>
      simp only [hst]
      constructor
      · intro h x hx
        rcases List.mem_cons.mp hx with rfl | hx
        · exact hst
        · exact ih.mp h x hx
      · intro h
        exact ih.mpr fun x hx => h x (List.mem_cons_of_mem _ hx)
    | some t =>
      cases hrw : raceWinner tl with
      | none =>
        simp only [hst, hrw]
        constructor
        · intro h
          exact absurd h (by simp)
        · intro h
          exact absurd hst (by simp [h (u, pr) (by simp)])
      | some w =>
        obtain ⟨t2, u2⟩ := w
        simp only [hst, hrw]
        constructor
        · intro h
          split at h <;> exact absurd h (by simp)
        · intro h
          exact absurd hst (by simp [h (u, pr) (by simp)])

/-- helper: a race winner constructed its request, observed a 200 before
the deadline, and no candidate observed one earlier. -/
theorem raceWinner_some_spec (l : List (String × Probe)) :
    ∀ t u, raceWinner l = some (t, u) →
      (∃ pr, (u, pr) ∈ l ∧ succTime pr = some t) ∧
      ∀ x ∈ l, ∀ tv, succTime x.2 = some tv → t ≤ tv := by
  induction l with
  | nil =>
    intro t u h
    exact absurd h (by simp [raceWinner])
  | cons hd tl ih =>
    obtain ⟨u0, pr0⟩ := hd
    intro t u h
    unfold raceWinner at h
    cases hst : succTime pr0 with
    | none =>
      simp only [hst] at h
      obtain ⟨⟨pr, hmem, hsucc⟩, hmin⟩ := ih t u h
      refine ⟨⟨pr, List.mem_cons_of_mem _ hmem, hsucc⟩, ?_⟩
      intro x hx tv hsv
      rcases List.mem_cons.mp hx with rfl | hx
      · simp [hst] at hsv
      · exact hmin x hx tv hsv
    | some t0 =>
      cases hrw : raceWinner tl with
      | none =>
        simp only [hst, hrw] at h
        obtain ⟨rfl, rfl⟩ : t0 = t ∧ u0 = u := by simpa using h
        refine ⟨⟨pr0, by simp, hst⟩, ?_⟩
        intro x hx tv hsv
        rcases List.mem_cons.mp hx with rfl | hx
        · simp only [hst] at hsv
          cases hsv
          omega
        · have hnone := (raceWinner_none_iff tl).mp hrw x hx
          rw [hnone] at hsv
          cases hsv
      | some w =>
        obtain ⟨t2, u2⟩ := w
        simp only [hst, hrw] at h
        by_cases hle : t0 ≤ t2
        · rw [if_pos hle] at h
          obtain ⟨rfl, rfl⟩ : t0 = t ∧ u0 = u := by simpa using h
          refine ⟨⟨pr0, by simp, hst⟩, ?_⟩
          intro x hx tv hsv
          rcases List.mem_cons.mp hx with rfl | hx
          · simp only [hst] at hsv
            cases hsv
            omega
          · have := (ih t2 u2 hrw).2 x hx tv hsv
            omega
        · rw [if_neg hle] at h
          obtain ⟨rfl, rfl⟩ : t2 = t ∧ u2 = u := by simpa using h
          obtain ⟨⟨pr, hmem, hsucc⟩, hmin⟩ := ih t2 u2 hrw
          refine ⟨⟨pr, List.mem_cons_of_mem _ hmem, hsucc⟩, ?_⟩
          intro x hx tv hsv
          rcases List.mem_cons.mp hx with rfl | hx
          · simp only [hst] at hsv
            cases hsv
            omega
          · exact hmin x hx tv hsv

/-- **C9**: `bestMirror` ignores blank and `#` lines after trimming, skips
candidates whose request construction fails, returns with a nil error the
first candidate to observe a 200 before the shared 15-second deadline
(ties broken by first write), and returns the deadline error when no
candidate succeeds within the window. -/
theorem C9_best_mirror (input : List String) (probes : String → Probe) :
    (∀ t ∈ readLines input, t.length ≠ 0 ∧ goHasPrefix t "#" = false ∧
      ∃ l ∈ input, t = goTrim l) ∧
    (∀ t u, raceWinner ((readLines input).map fun v => (v, probes v)) = some (t, u) →
      bestMirror input probes = .ok u ∧ u ∈ readLines input ∧
      succTime (probes u) = some t ∧
      ∀ v ∈ readLines input, ∀ tv, succTime (probes v) = some tv → t ≤ tv) ∧
    ((∀ v ∈ readLines input, succTime (probes v) = none) →
      bestMirror input probes = .error .deadlineExceeded) := by
  refine ⟨?_, ?_, ?_⟩
  · intro t ht
    obtain ⟨l, hl, hf⟩ := List.mem_filterMap.mp ht
    by_cases hc : (goTrim l).length = 0 || goHasPrefix (goTrim l) "#"
    · rw [if_pos hc] at hf
      cases hf
    · rw [if_neg hc] at hf
      obtain rfl : goTrim l = t := by
        simpa using hf
      rcases Bool.or_eq_false_iff.mp (Bool.of_not_eq_true hc) with ⟨h1, h2⟩
      exact ⟨by simpa using h1, h2, l, hl, rfl⟩
  · intro t u h
    obtain ⟨⟨pr, hmem, hsucc⟩, hmin⟩ :=
      raceWinner_some_spec ((readLines input).map fun v => (v, probes v)) t u h
    obtain ⟨v, hv, hvu⟩ := List.mem_map.mp hmem
    obtain ⟨rfl, rfl⟩ : v = u ∧ probes v = pr := by
      injection hvu.symm with h1 h2
      exact ⟨h1.symm, h2.symm⟩
    refine ⟨?_, hv, hsucc, ?_⟩
    · simp only [bestMirror]
      rw [h]
    · intro w hw tv hsv
      exact hmin (w, probes w) (List.mem_map.mpr ⟨w, hw, rfl⟩) tv hsv
  · intro h
    have hnone : raceWinner ((readLines input).map fun v => (v, probes v)) = none :=
      (raceWinner_none_iff _).mpr fun x hx => by
        obtain ⟨v, hv, rfl⟩ := List.mem_map.mp hx
        exact h v hv
    simp only [bestMirror]
    rw [hnone]

/-- **C9 witness**: in a concrete race the candidate that answers 200 at
50 ms beats the one at 100 ms; with no successful probe the deadline error
is returned. -/
theorem C9_witness :
    bestMirror ["# mirrors", "", " http://a ", "http://b"]
      (fun u => if u = "http://a" then ⟨true, some 50⟩ else ⟨true, some 100⟩) =
      .ok "http://a" ∧
    bestMirror ["http://c"] (fun _ => ⟨true, none⟩) = .error .deadlineExceeded :=
  ⟨((C9_best_mirror ["# mirrors", "", " http://a ", "http://b"]
      (fun u => if u = "http://a" then ⟨true, some 50⟩ else ⟨true, some 100⟩)).2.1
      50 "http://a" (by decide)).1,
   (C9_best_mirror ["http://c"] (fun _ => ⟨true, none⟩)).2.2 (by decide)⟩

end Getparty
